import Mathlib

/-!
Verification development for the bevy-tnua rapier3d backend and the platformer
demo control system.  The physics backend (rapier) is modelled as a snapshot of
the colliders, contact pairs and surfaces that lie along the single cast line of
one proximity-sensor invocation; all scalars are rationals.
-/

namespace Tnua

/-- Three dimensional vector over the rationals. -/
structure V3 where
  x : ℚ
  y : ℚ
  z : ℚ
deriving DecidableEq

instance : Add V3 := ⟨fun a b => ⟨a.x + b.x, a.y + b.y, a.z + b.z⟩⟩

instance : Sub V3 := ⟨fun a b => ⟨a.x - b.x, a.y - b.y, a.z - b.z⟩⟩

def V3.zero : V3 := ⟨0, 0, 0⟩

def V3.dot (a b : V3) : ℚ := a.x * b.x + a.y * b.y + a.z * b.z

def V3.cross (a b : V3) : V3 :=
  ⟨a.y * b.z - a.z * b.y, a.z * b.x - a.x * b.z, a.x * b.y - a.y * b.x⟩

def V3.lengthSquared (a : V3) : ℚ := a.x * a.x + a.y * a.y + a.z * a.z

/-- Scalar multiplication of a vector, written from the left. -/
def V3.scale (q : ℚ) (a : V3) : V3 := ⟨q * a.x, q * a.y, q * a.z⟩

/-- Componentwise product, as used for torque times principal inertia. -/
def V3.compMul (a b : V3) : V3 := ⟨a.x * b.x, a.y * b.y, a.z * b.z⟩

/-- Interaction groups of rapier: a membership mask and a filter mask. -/
structure InteractionGroups where
  memberships : ℕ
  filterMask : ℕ
deriving DecidableEq

/-- Group compatibility test of rapier: both directions must share a bit. -/
def InteractionGroups.test (a b : InteractionGroups) : Bool :=
  decide (a.memberships &&& b.filterMask ≠ 0) && decide (b.memberships &&& a.filterMask ≠ 0)

/-- Groups that interact with everything (all 32 bits set). -/
def InteractionGroups.all : InteractionGroups := ⟨2 ^ 32 - 1, 2 ^ 32 - 1⟩

/-- The data of one rapier collider that the predicate inspects. -/
structure ColliderData where
  collisionGroups : InteractionGroups
  solverGroups : InteractionGroups
  isSensor : Bool
deriving DecidableEq

/-- One contact manifold of an active contact pair. -/
structure ContactManifold where
  numPoints : ℕ
  localN1 : V3
  localN2 : V3
deriving DecidableEq

/-- An active contact pair between two entities, as returned by contact_pair. -/
structure ContactPair where
  collider1 : ℕ
  manifolds : List ContactManifold
deriving DecidableEq

/-- A potential hit surface lying on the cast line: its entity, its distance
from the unshifted cast origin along the cast direction, the intersection
point and the surface normal the backend would report. -/
structure Surface where
  entity : ℕ
  dist : ℚ
  point : V3
  normal : V3
deriving DecidableEq

/-- Translation and velocities of a rigid body, for surface velocity sampling. -/
structure BodyMotion where
  translation : V3
  linvel : V3
  angvel : V3
deriving DecidableEq

/-- Snapshot of the physics backend for one tick, restricted to one cast line.
The entity-to-collider map and the collider arena are kept as two separate
association lists, mirroring the two lookups of get_collider. -/
structure World where
  entity2collider : List (ℕ × ℕ)
  colliders : List (ℕ × ColliderData)
  ghostPlatforms : List ℕ
  contacts : List ((ℕ × ℕ) × ContactPair)
  surfaces : List Surface
  bodies : List (ℕ × BodyMotion)
deriving DecidableEq

/-- Lookup of the collider of an entity: first the entity-to-collider map,
then the collider arena; either lookup may fail. -/
def getCollider (w : World) (entity : ℕ) : Option ColliderData :=
  (w.entity2collider.lookup entity).bind fun handle => w.colliders.lookup handle

/-- Membership in the ghost platform tag query. -/
def isGhostPlatform (w : World) (entity : ℕ) : Bool :=
  decide (entity ∈ w.ghostPlatforms)

/-- Active contact pair between two entities, found in either key order. -/
def contactPair (w : World) (a b : ℕ) : Option ContactPair :=
  (w.contacts.lookup (a, b)).orElse fun _ => w.contacts.lookup (b, a)

/-- Per sensor configuration: cast range, the intersection match prevention
cutoff, and the (already normalized) cast direction. -/
structure SensorCfg where
  castRange : ℚ
  cutoff : ℚ
  castDirection : V3
deriving DecidableEq

/-- The contact-manifold part of the cast predicate: every manifold of the
active contact pair between owner and candidate that has at least one contact
point must have a normal whose dot product with the cast direction does not
exceed the cutoff.  The normal is taken from the side facing the owner, as
selected by the collider order of the pair. -/
def manifoldCheck (w : World) (ownerEntity : ℕ) (cfg : SensorCfg) (otherEntity : ℕ) : Bool :=
  match contactPair w ownerEntity otherEntity with
  | some contact =>
    let sameOrder := ownerEntity == contact.collider1
    contact.manifolds.all fun manifold =>
      if 0 < manifold.numPoints then
        let manifoldNormal := if sameOrder then manifold.localN2 else manifold.localN1
        !(decide (cfg.cutoff < manifoldNormal.dot cfg.castDirection))
      else
        true
  | none => true

/-- The cast predicate closure of do_cast: solver-group filtering with the
ghost-platform exemption, the sensor-collider rejection (both skipped when the
candidate has no collider record), and the contact-manifold rejection. -/
def castPredicate (w : World) (ownerEntity : ℕ) (ownerSolverGroups : InteractionGroups)
    (hasGhostSensor : Bool) (cfg : SensorCfg)
    (alreadyVisitedGhostEntities : List ℕ) (otherEntity : ℕ) : Bool :=
  let colliderChecks :=
    match getCollider w otherEntity with
    | some otherCollider =>
      let groupsOk :=
        if !(otherCollider.solverGroups.test ownerSolverGroups) then
          if hasGhostSensor && isGhostPlatform w otherEntity then
            !(decide (otherEntity ∈ alreadyVisitedGhostEntities))
          else
            false
        else
          true
      groupsOk && !otherCollider.isSensor
    | none => true
  colliderChecks && manifoldCheck w ownerEntity cfg otherEntity

/-- The broad-phase group filter of the cast query: when the owner has a
collider, candidates must have collision groups compatible with it. -/
def broadFilter (w : World) (ownerGroupFilter : Option InteractionGroups) (entity : ℕ) : Bool :=
  match ownerGroupFilter with
  | none => true
  | some g =>
    match getCollider w entity with
    | some c => c.collisionGroups.test g
    | none => true

/-- Leftmost surface of minimal distance, modelling the nearest-hit choice of
the backend ray cast. -/
def pickNearest : List Surface → Option Surface
  | [] => none
  | s :: rest =>
    match pickNearest rest with
    | none => some s
    | some t => if s.dist ≤ t.dist then some s else some t

/-- Backend ray cast from the origin shifted by skip along the cast direction,
with the remaining range, the broad-phase group filter, the owner excluded,
and the predicate applied; returns the nearest qualifying surface. -/
def castRay (w : World) (ownerEntity : ℕ) (ownerGroupFilter : Option InteractionGroups)
    (pred : ℕ → Bool) (skip range : ℚ) : Option Surface :=
  pickNearest (w.surfaces.filter fun s =>
    decide (s.entity ≠ ownerEntity) && decide (skip ≤ s.dist) && decide (s.dist - skip ≤ range)
      && broadFilter w ownerGroupFilter s.entity && pred s.entity)

/-- Result of one cast, with proximity measured from the shifted cast origin,
exactly as the backend reports the time of impact. -/
structure CastResult where
  entity : ℕ
  proximity : ℚ
  intersectionPoint : V3
  normal : V3
deriving DecidableEq

/-- One invocation of the do_cast closure at a given skip distance and set of
already visited ghost entities. -/
def doCast (w : World) (ownerEntity : ℕ) (ownerGroupFilter : Option InteractionGroups)
    (ownerSolverGroups : InteractionGroups) (hasGhostSensor : Bool) (cfg : SensorCfg)
    (castRangeSkip : ℚ) (alreadyVisitedGhostEntities : List ℕ) : Option CastResult :=
  (castRay w ownerEntity ownerGroupFilter
      (castPredicate w ownerEntity ownerSolverGroups hasGhostSensor cfg
        alreadyVisitedGhostEntities)
      castRangeSkip (cfg.castRange - castRangeSkip)).map fun s =>
    { entity := s.entity
      proximity := s.dist - castRangeSkip
      intersectionPoint := s.point
      normal := s.normal }

/-- Output record of the proximity sensor for one hit. -/
structure SensorOutput where
  entity : ℕ
  proximity : ℚ
  normal : V3
  entityLinvel : V3
  entityAngvel : V3
deriving DecidableEq

/-- Surface velocity sampling: the linear velocity of the hit body plus its
angular velocity crossed with the offset of the intersection point from the
body translation; zero when the body has no velocity record. -/
def mkSensorOutput (w : World) (cr : CastResult) : SensorOutput :=
  match w.bodies.lookup cr.entity with
  | some body =>
    let entityAngvel := body.angvel
    let entityLinvel := body.linvel +
      (if 0 < entityAngvel.lengthSquared then
        entityAngvel.cross (cr.intersectionPoint - body.translation)
      else
        V3.zero)
    { entity := cr.entity, proximity := cr.proximity, normal := cr.normal,
      entityLinvel := entityLinvel, entityAngvel := entityAngvel }
  | none =>
    { entity := cr.entity, proximity := cr.proximity, normal := cr.normal,
      entityLinvel := V3.zero, entityAngvel := V3.zero }

/-- Sensor output with a given entity and proximity, an upward normal and no
surface velocity; used for concrete scenarios. -/
def mkSensorOutputPlain (entity : ℕ) (proximity : ℚ) : SensorOutput :=
  { entity := entity, proximity := proximity, normal := ⟨0, 1, 0⟩,
    entityLinvel := V3.zero, entityAngvel := V3.zero }

/-- The ghost skip-cast loop, with explicit fuel; none signals fuel
exhaustion.  On a ghost hit the recorded proximity becomes the next skip, the
entity joins the visited set and, when a ghost sensor is present, the output
record is appended to the ghost list; on a non-ghost hit the loop breaks with
that output; on no hit it breaks with an empty output. -/
def skipLoop (w : World) (ownerEntity : ℕ) (ownerGroupFilter : Option InteractionGroups)
    (ownerSolverGroups : InteractionGroups) (hasGhostSensor : Bool) (cfg : SensorCfg) :
    ℕ → ℚ → List ℕ → List SensorOutput → Option (Option SensorOutput × List SensorOutput)
  | 0, _, _, _ => none
  | fuel + 1, castRangeSkip, visited, ghosts =>
    match doCast w ownerEntity ownerGroupFilter ownerSolverGroups hasGhostSensor cfg
        castRangeSkip visited with
    | none => some (none, ghosts)
    | some cr =>
      let out := mkSensorOutput w cr
      if isGhostPlatform w cr.entity then
        skipLoop w ownerEntity ownerGroupFilter ownerSolverGroups hasGhostSensor cfg
          fuel cr.proximity (visited.insert cr.entity)
          (if hasGhostSensor then ghosts ++ [out] else ghosts)
      else
        some (some out, ghosts)

/-- The sensing and motor toggle. -/
inductive TnuaToggle
  | Disabled
  | SenseOnly
  | Enabled
deriving DecidableEq

/-- Tick-local sensor state: the sensor output and the ghost list. -/
structure SensorState where
  output : Option SensorOutput
  ghostList : List SensorOutput
deriving DecidableEq

/-- One proximity-sensor update for one entity: a disabled toggle returns the
previous state untouched; otherwise the group filter and solver groups of the
owner are determined (defaulting to interacts-with-everything when the owner
has no collider record), the ghost list is cleared when a ghost sensor is
present, and the skip-cast loop runs with fuel one more than the number of
surfaces. -/
def updateProximitySensor (w : World) (ownerEntity : ℕ) (cfg : SensorCfg)
    (toggle : TnuaToggle) (hasGhostSensor : Bool) (prev : SensorState) :
    Option SensorState :=
  match toggle with
  | TnuaToggle.Disabled => some prev
  | _ =>
    let ownerFilterAndSolver : Option InteractionGroups × InteractionGroups :=
      match getCollider w ownerEntity with
      | some ownerCollider => (some ownerCollider.collisionGroups, ownerCollider.solverGroups)
      | none => (none, InteractionGroups.all)
    let startGhosts : List SensorOutput := if hasGhostSensor then [] else prev.ghostList
    (skipLoop w ownerEntity ownerFilterAndSolver.1 ownerFilterAndSolver.2 hasGhostSensor cfg
        (w.surfaces.length + 1) 0 [] startGhosts).map fun r =>
      { output := r.1, ghostList := r.2 }

/-- Number of ghost-platform surfaces whose entity is not yet visited; the
termination measure of the skip-cast loop. -/
def ghostMeasure (w : World) (visited : List ℕ) : ℕ :=
  (w.surfaces.filter fun s =>
    isGhostPlatform w s.entity && !(decide (s.entity ∈ visited))).length

/-- Strict increase of a list of rationals, as a Boolean. -/
def strictlyIncreasingB : List ℚ → Bool
  | [] => true
  | [_] => true
  | a :: b :: t => decide (a < b) && strictlyIncreasingB (b :: t)

/-- Interaction groups with no bits set; incompatible with every group. -/
def noGroups : InteractionGroups := ⟨0, 0⟩

/-- Collider of a ghost platform in the scenarios: visible to every cast but
with solver groups incompatible with everything. -/
def ghostCollider : ColliderData :=
  { collisionGroups := InteractionGroups.all, solverGroups := noGroups, isSensor := false }

/-- Collider of ordinary solid geometry in the scenarios. -/
def solidCollider : ColliderData :=
  { collisionGroups := InteractionGroups.all, solverGroups := InteractionGroups.all,
    isSensor := false }

/-- A surface along the cast line with an upward normal at the origin point. -/
def surf (entity : ℕ) (dist : ℚ) : Surface := ⟨entity, dist, V3.zero, ⟨0, 1, 0⟩⟩

/-- Scenario world: the owner is entity zero; ghost platforms one and two lie
at distances two and three along the cast, and solid entity three at five. -/
def W1 : World :=
  { entity2collider := [(0, 100), (1, 101), (2, 102), (3, 103)]
    colliders := [(100, solidCollider), (101, ghostCollider), (102, ghostCollider),
      (103, solidCollider)]
    ghostPlatforms := [1, 2]
    contacts := []
    surfaces := [surf 1 2, surf 2 3, surf 3 5]
    bodies := [] }

/-- Scenario configuration: range ten, cutoff zero, downward cast. -/
def cfg1 : SensorCfg := { castRange := 10, cutoff := 0, castDirection := ⟨0, -1, 0⟩ }

/-- Empty previous sensor state. -/
def prev0 : SensorState := { output := none, ghostList := [] }

/-- Scenario world for a candidate without a collider record: entity seven at
distance one has no entry in the entity-to-collider map, solid entity eight
lies beyond it at distance two. -/
def W4 : World :=
  { entity2collider := [(0, 100), (8, 108)]
    colliders := [(100, solidCollider), (108, solidCollider)]
    ghostPlatforms := []
    contacts := []
    surfaces := [surf 7 1, surf 8 2]
    bodies := [] }

/-- The empty backend snapshot: no colliders, no contacts, no surfaces. -/
def W0 : World :=
  { entity2collider := [], colliders := [], ghostPlatforms := [], contacts := [],
    surfaces := [], bodies := [] }

/-- The four fall-through control schemes of the platformer demo. -/
inductive FallingThroughControlScheme
  | JumpThroughOnly
  | WithoutHelper
  | SingleFall
  | KeepFalling
deriving DecidableEq

/-- The override loop of the JumpThroughOnly scheme: walk the ghost list and,
at the first entry whose proximity is at least the minimum proximity,
override the sensor output with it and stop. -/
def firstGhostOverride (minProximity : ℚ) :
    List SensorOutput → Option SensorOutput → Option SensorOutput
  | [], output => output
  | g :: rest, output =>
    if minProximity ≤ g.proximity then some g else firstGhostOverride minProximity rest output

/-- Qualifying test shared by the schemes: the entry proximity is at or above
the minimum proximity. -/
def qualifies (minProximity : ℚ) (g : SensorOutput) : Bool :=
  decide (minProximity ≤ g.proximity)

/-- Persistent state of the fall-through helper: the entity of the ghost
platform the character is currently committed to falling through, if any. -/
abbrev HelperState : Type := Option ℕ

/-- Modelled from the spec: the try_falling operation of
TnuaSimpleFallThroughPlatformsHelper, whose implementation is not part of the
sources here.  A committed fall-through continues while its platform still
appears in the ghost list of the tick; a new commitment to the nearest
qualifying ghost platform is accepted only when allowNew holds; the returned
boolean tells whether a fall-through is active or newly started, and the
sensor output is left unoverridden in every case. -/
def tryFalling (minProximity : ℚ) (ghostList : List SensorOutput) (allowNew : Bool)
    (helper : HelperState) : HelperState × Bool :=
  let stillListed := fun e => decide (e ∈ ghostList.map SensorOutput.entity)
  match helper with
  | some e =>
    if stillListed e then
      (some e, true)
    else
      match if allowNew then ghostList.find? (qualifies minProximity) else none with
      | some g => (some g.entity, true)
      | none => (none, false)
  | none =>
    match if allowNew then ghostList.find? (qualifies minProximity) else none with
    | some g => (some g.entity, true)
    | none => (none, false)

/-- Modelled from the spec: the dont_fall operation of
TnuaSimpleFallThroughPlatformsHelper, whose implementation is not part of the
sources here.  While a committed fall-through platform still appears in the
ghost list the sensor output stays unoverridden and the helper persists;
otherwise the helper is cleared and the first qualifying ghost entry, when one
exists, is substituted into the sensor output. -/
def dontFall (minProximity : ℚ) (ghostList : List SensorOutput)
    (output : Option SensorOutput) (helper : HelperState) :
    HelperState × Option SensorOutput :=
  let stillListed := fun e => decide (e ∈ ghostList.map SensorOutput.entity)
  match helper with
  | some e =>
    if stillListed e then
      (some e, output)
    else
      match ghostList.find? (qualifies minProximity) with
      | some g => (none, some g)
      | none => (none, output)
  | none =>
    match ghostList.find? (qualifies minProximity) with
    | some g => (none, some g)
    | none => (none, output)

/-- Outcome of the fall-through part of the demo control system for one tick:
the crouch decision, the possibly overridden sensor output, and the new
helper state. -/
structure ControlOutcome where
  crouch : Bool
  output : Option SensorOutput
  helper : HelperState
deriving DecidableEq

/-- The fall-through match of apply_platformer_controls, one arm per scheme.
JumpThroughOnly mirrors the raw crouch input and always overrides with the
first qualifying ghost entry; WithoutHelper suppresses the crouch exactly when
a qualifying entry exists while pressed and substitutes it while not pressed;
SingleFall passes the just-pressed flag as the permission of try_falling;
KeepFalling always passes true. -/
def fallingThroughStep (scheme : FallingThroughControlScheme) (minProximity : ℚ)
    (ghostList : List SensorOutput) (crouchPressed crouchJustPressed : Bool)
    (output : Option SensorOutput) (helper : HelperState) : ControlOutcome :=
  match scheme with
  | FallingThroughControlScheme.JumpThroughOnly =>
    { crouch := crouchPressed
      output := firstGhostOverride minProximity ghostList output
      helper := helper }
  | FallingThroughControlScheme.WithoutHelper =>
    let relevantPlatform := ghostList.find? (qualifies minProximity)
    if crouchPressed then
      { crouch := relevantPlatform.isNone, output := output, helper := helper }
    else
      { crouch := false
        output := match relevantPlatform with
          | some g => some g
          | none => output
        helper := helper }
  | FallingThroughControlScheme.SingleFall =>
    if crouchPressed then
      let r := tryFalling minProximity ghostList crouchJustPressed helper
      { crouch := !r.2, output := output, helper := r.1 }
    else
      let r := dontFall minProximity ghostList output helper
      { crouch := false, output := r.2, helper := r.1 }
  | FallingThroughControlScheme.KeepFalling =>
    if crouchPressed then
      let r := tryFalling minProximity ghostList true helper
      { crouch := !r.2, output := output, helper := r.1 }
    else
      let r := dontFall minProximity ghostList output helper
      { crouch := false, output := r.2, helper := r.1 }

/-- One directional motor command component: its value and whether every
coordinate of the underlying float vector is finite. -/
structure MotorField where
  value : V3
  finite : Bool
deriving DecidableEq

/-- A motor command: linear and angular, boost and acceleration. -/
structure TnuaMotor where
  linBoost : MotorField
  linAcceleration : MotorField
  angBoost : MotorField
  angAcceleration : MotorField
deriving DecidableEq

/-- Linear and angular velocity of a character. -/
structure Velocity where
  linvel : V3
  angvel : V3
deriving DecidableEq

/-- External force and torque written to the backend. -/
structure ExternalForce where
  force : V3
  torque : V3
deriving DecidableEq

/-- Default external force: zero force and zero torque. -/
def ExternalForce.default : ExternalForce := ⟨V3.zero, V3.zero⟩

/-- Mass and principal inertia of a character. -/
structure MassProperties where
  mass : ℚ
  principalInertia : V3
deriving DecidableEq

/-- The per-entity body of apply_motors_system on an enabled entity: each
finite boost is added to the matching velocity, each finite acceleration is
written to the external force scaled by the mass, or to the torque scaled
componentwise by the principal inertia; non-finite components are skipped. -/
def applyMotor (motor : TnuaMotor) (velocity : Velocity) (massProperties : MassProperties)
    (externalForce : ExternalForce) : Velocity × ExternalForce :=
  let velocity :=
    if motor.linBoost.finite then
      { velocity with linvel := velocity.linvel + motor.linBoost.value }
    else
      velocity
  let externalForce :=
    if motor.linAcceleration.finite then
      { externalForce with
        force := V3.scale massProperties.mass motor.linAcceleration.value }
    else
      externalForce
  let velocity :=
    if motor.angBoost.finite then
      { velocity with angvel := velocity.angvel + motor.angBoost.value }
    else
      velocity
  let externalForce :=
    if motor.angAcceleration.finite then
      { externalForce with
        torque := V3.compMul motor.angAcceleration.value massProperties.principalInertia }
    else
      externalForce
  (velocity, externalForce)

/-- The queried components of one entity in the motor pass. -/
structure MotorEntity where
  motor : TnuaMotor
  velocity : Velocity
  massProperties : MassProperties
  externalForce : ExternalForce
  toggle : TnuaToggle
deriving DecidableEq

/-- A concrete motor entity with a given toggle, used for scenarios: unit
boosts and accelerations, resting velocity, unit mass properties. -/
def mkMotorEntity (toggle : TnuaToggle) : MotorEntity :=
  { motor :=
      { linBoost := ⟨⟨1, 0, 0⟩, true⟩, linAcceleration := ⟨⟨0, 1, 0⟩, true⟩,
        angBoost := ⟨⟨0, 0, 1⟩, true⟩, angAcceleration := ⟨⟨1, 0, 0⟩, true⟩ }
    velocity := ⟨V3.zero, V3.zero⟩
    massProperties := ⟨1, ⟨1, 1, 1⟩⟩
    externalForce := ⟨⟨2, 2, 2⟩, ⟨3, 3, 3⟩⟩
    toggle := toggle }

/-- Application of the motor to one enabled entity. -/
def applyMotorEntity (e : MotorEntity) : MotorEntity :=
  let r := applyMotor e.motor e.velocity e.massProperties e.externalForce
  { e with velocity := r.1, externalForce := r.2 }

/-- The motor pass over the query iteration order: an enabled entity receives
its motor application and the pass continues; a disabled or sense-only entity
has its external force reset to the default and the whole pass returns,
leaving every later entity untouched. -/
def applyMotorsSystem : List MotorEntity → List MotorEntity
  | [] => []
  | e :: rest =>
    match e.toggle with
    | TnuaToggle.Disabled | TnuaToggle.SenseOnly =>
      { e with externalForce := ExternalForce.default } :: rest
    | TnuaToggle.Enabled => applyMotorEntity e :: applyMotorsSystem rest

/-! Helper lemmas about the first qualifying ghost entry. -/

theorem firstGhostOverride_eq_find (minProximity : ℚ) (gl : List SensorOutput)
    (out : Option SensorOutput) :
    firstGhostOverride minProximity gl out =
      match gl.find? (qualifies minProximity) with
      | some g => some g
      | none => out := by
  induction gl with
  | nil => rfl
  | cons h t ih =>
    by_cases hq : minProximity ≤ h.proximity
    · simp [firstGhostOverride, List.find?, qualifies, hq]
    · simp [firstGhostOverride, List.find?, qualifies, hq, ih]

theorem find_qualifies_decomp (minProximity : ℚ) (gl : List SensorOutput)
    (hex : ∃ g ∈ gl, minProximity ≤ g.proximity) :
    ∃ pre g post, gl = pre ++ g :: post ∧ (∀ p ∈ pre, ¬ minProximity ≤ p.proximity) ∧
      minProximity ≤ g.proximity ∧ gl.find? (qualifies minProximity) = some g := by
  induction gl with
  | nil => simp at hex
  | cons h t ih =>
    by_cases hq : minProximity ≤ h.proximity
    · exact ⟨[], h, t, by simp, by simp, hq, by simp [List.find?, qualifies, hq]⟩
    · have hex' : ∃ g ∈ t, minProximity ≤ g.proximity := by
        rcases hex with ⟨g, hg, hgq⟩
        rcases List.mem_cons.mp hg with rfl | hgt
        · exact absurd hgq hq
        · exact ⟨g, hgt, hgq⟩
      rcases ih hex' with ⟨pre, g, post, heq, hpre, hgq, hfind⟩
      refine ⟨h :: pre, g, post, by simp [heq], ?_, hgq, ?_⟩
      · intro p hp
        rcases List.mem_cons.mp hp with rfl | hpt
        · exact hq
        · exact hpre p hpt
      · simp [List.find?, qualifies, hq, hfind]

theorem find_qualifies_none (minProximity : ℚ) (gl : List SensorOutput)
    (hall : ∀ g ∈ gl, ¬ minProximity ≤ g.proximity) :
    gl.find? (qualifies minProximity) = none := by
  rw [List.find?_eq_none]
  intro g hg
  simp [qualifies]
  exact not_le.mp (hall g hg)

/-- C5: under the JumpThroughOnly scheme the crouch decision equals the raw
crouch input, the first ghost entry with proximity at or above the minimum
proximity (inclusive) is substituted into the sensor output whenever one
exists, and the output is left as the sensor computed it otherwise. -/
theorem jumpThroughOnly_first_qualifying_substituted (minProximity : ℚ)
    (gl : List SensorOutput) (pressed just : Bool) (out : Option SensorOutput)
    (helper : HelperState) :
    (fallingThroughStep FallingThroughControlScheme.JumpThroughOnly minProximity gl
        pressed just out helper).crouch = pressed ∧
    ((∃ g ∈ gl, minProximity ≤ g.proximity) →
      ∃ pre g post, gl = pre ++ g :: post ∧ (∀ p ∈ pre, ¬ minProximity ≤ p.proximity) ∧
        minProximity ≤ g.proximity ∧
        (fallingThroughStep FallingThroughControlScheme.JumpThroughOnly minProximity gl
            pressed just out helper).output = some g) ∧
    ((∀ g ∈ gl, ¬ minProximity ≤ g.proximity) →
      (fallingThroughStep FallingThroughControlScheme.JumpThroughOnly minProximity gl
          pressed just out helper).output = out) := by
  refine ⟨rfl, ?_, ?_⟩
  · intro hex
    rcases find_qualifies_decomp minProximity gl hex with ⟨pre, g, post, heq, hpre, hgq, hfind⟩
    refine ⟨pre, g, post, heq, hpre, hgq, ?_⟩
    show firstGhostOverride minProximity gl out = some g
    rw [firstGhostOverride_eq_find, hfind]
  · intro hall
    show firstGhostOverride minProximity gl out = out
    rw [firstGhostOverride_eq_find, find_qualifies_none minProximity gl hall]

/-- Witness for C5 at a concrete ghost list with entries at proximities one
half and two and minimum proximity one: the entry at two is substituted. -/
theorem jumpThroughOnly_first_qualifying_substituted_witness :
    ∃ pre g post,
      [mkSensorOutputPlain 1 (1/2), mkSensorOutputPlain 2 2] = pre ++ g :: post ∧
      (∀ p ∈ pre, ¬ (1:ℚ) ≤ p.proximity) ∧ (1:ℚ) ≤ g.proximity ∧
      (fallingThroughStep FallingThroughControlScheme.JumpThroughOnly 1
          [mkSensorOutputPlain 1 (1/2), mkSensorOutputPlain 2 2] true false none none).output
        = some g :=
  (jumpThroughOnly_first_qualifying_substituted 1
      [mkSensorOutputPlain 1 (1/2), mkSensorOutputPlain 2 2] true false none none).2.1
    ⟨mkSensorOutputPlain 2 2, by simp [mkSensorOutputPlain], by norm_num [mkSensorOutputPlain]⟩

/-- C6: under the WithoutHelper scheme, while crouch is pressed the output is
never overridden and the crouch decision holds exactly when no ghost entry
qualifies; while crouch is not pressed the decision is false and the first
qualifying entry, when one exists, is substituted into the output. -/
theorem withoutHelper_crouch_suppression (minProximity : ℚ) (gl : List SensorOutput)
    (just : Bool) (out : Option SensorOutput) (helper : HelperState) :
    ((fallingThroughStep FallingThroughControlScheme.WithoutHelper minProximity gl
        true just out helper).output = out ∧
      ((fallingThroughStep FallingThroughControlScheme.WithoutHelper minProximity gl
          true just out helper).crouch = true ↔
        ∀ g ∈ gl, ¬ minProximity ≤ g.proximity)) ∧
    ((fallingThroughStep FallingThroughControlScheme.WithoutHelper minProximity gl
        false just out helper).crouch = false ∧
      ((∃ g ∈ gl, minProximity ≤ g.proximity) →
        ∃ pre g post, gl = pre ++ g :: post ∧ (∀ p ∈ pre, ¬ minProximity ≤ p.proximity) ∧
          minProximity ≤ g.proximity ∧
          (fallingThroughStep FallingThroughControlScheme.WithoutHelper minProximity gl
              false just out helper).output = some g) ∧
      ((∀ g ∈ gl, ¬ minProximity ≤ g.proximity) →
        (fallingThroughStep FallingThroughControlScheme.WithoutHelper minProximity gl
            false just out helper).output = out)) := by
  refine ⟨⟨rfl, ?_⟩, rfl, ?_, ?_⟩
  · show (gl.find? (qualifies minProximity)).isNone = true ↔ _
    rw [Option.isNone_iff_eq_none, List.find?_eq_none]
    constructor
    · intro h g hg hq
      have := h g hg
      simp [qualifies] at this
      exact absurd hq (not_le.mpr this)
    · intro h g hg
      simp [qualifies]
      exact not_le.mp (h g hg)
  · intro hex
    rcases find_qualifies_decomp minProximity gl hex with ⟨pre, g, post, heq, hpre, hgq, hfind⟩
    refine ⟨pre, g, post, heq, hpre, hgq, ?_⟩
    simp only [fallingThroughStep, Bool.false_eq_true, if_false, hfind]
  · intro hall
    simp only [fallingThroughStep, Bool.false_eq_true, if_false,
      find_qualifies_none minProximity gl hall]

/-- Witness for C6 at the scenario of the claim: ghost platforms at
proximities one half and two with minimum proximity one and crouch pressed;
only the entry at two qualifies, so the crouch decision is false. -/
theorem withoutHelper_crouch_suppression_witness :
    (fallingThroughStep FallingThroughControlScheme.WithoutHelper 1
        [mkSensorOutputPlain 1 (1/2), mkSensorOutputPlain 2 2] true false none none).crouch
      = false :=
  by
    have h := (withoutHelper_crouch_suppression 1
      [mkSensorOutputPlain 1 (1/2), mkSensorOutputPlain 2 2] false none none).1.2
    refine Bool.eq_false_iff.mpr fun hb => ?_
    have := h.mp hb (mkSensorOutputPlain 2 2) (by simp)
    norm_num [mkSensorOutputPlain] at this

/-- C7: the KeepFalling scheme produces the same outcome as the SingleFall
scheme on every tick where crouch is not pressed or was just pressed. -/
theorem keepFalling_eq_singleFall_when_not_held (minProximity : ℚ)
    (gl : List SensorOutput) (pressed just : Bool) (out : Option SensorOutput)
    (helper : HelperState) (h : pressed = false ∨ just = true) :
    fallingThroughStep FallingThroughControlScheme.KeepFalling minProximity gl
        pressed just out helper =
      fallingThroughStep FallingThroughControlScheme.SingleFall minProximity gl
        pressed just out helper := by
  rcases h with rfl | rfl
  · rfl
  · cases pressed <;> rfl

/-- Witness for C7 on a concrete just-pressed tick. -/
theorem keepFalling_eq_singleFall_when_not_held_witness :
    fallingThroughStep FallingThroughControlScheme.KeepFalling 1
        [mkSensorOutputPlain 2 2] true true none none =
      fallingThroughStep FallingThroughControlScheme.SingleFall 1
        [mkSensorOutputPlain 2 2] true true none none :=
  keepFalling_eq_singleFall_when_not_held 1 [mkSensorOutputPlain 2 2] true true none none
    (Or.inr rfl)

/-- C8: in one motor application each non-finite command component leaves the
matching velocity or external-force field unchanged, while each finite boost
is added to the matching velocity, a finite linear acceleration is written to
the force scaled by the mass, and a finite angular acceleration is written to
the torque scaled componentwise by the principal inertia. -/
theorem motor_nonfinite_components_skipped (motor : TnuaMotor) (velocity : Velocity)
    (massProperties : MassProperties) (externalForce : ExternalForce) :
    ((motor.linBoost.finite = false →
        (applyMotor motor velocity massProperties externalForce).1.linvel = velocity.linvel) ∧
      (motor.linBoost.finite = true →
        (applyMotor motor velocity massProperties externalForce).1.linvel =
          velocity.linvel + motor.linBoost.value)) ∧
    ((motor.linAcceleration.finite = false →
        (applyMotor motor velocity massProperties externalForce).2.force =
          externalForce.force) ∧
      (motor.linAcceleration.finite = true →
        (applyMotor motor velocity massProperties externalForce).2.force =
          V3.scale massProperties.mass motor.linAcceleration.value)) ∧
    ((motor.angBoost.finite = false →
        (applyMotor motor velocity massProperties externalForce).1.angvel = velocity.angvel) ∧
      (motor.angBoost.finite = true →
        (applyMotor motor velocity massProperties externalForce).1.angvel =
          velocity.angvel + motor.angBoost.value)) ∧
    ((motor.angAcceleration.finite = false →
        (applyMotor motor velocity massProperties externalForce).2.torque =
          externalForce.torque) ∧
      (motor.angAcceleration.finite = true →
        (applyMotor motor velocity massProperties externalForce).2.torque =
          V3.compMul motor.angAcceleration.value massProperties.principalInertia)) := by
  cases h1 : motor.linBoost.finite <;> cases h2 : motor.linAcceleration.finite <;>
    cases h3 : motor.angBoost.finite <;> cases h4 : motor.angAcceleration.finite <;>
    simp [applyMotor, h1, h2, h3, h4]

/-- Witness for C8 at a concrete motor with a non-finite linear boost and
finite angular acceleration. -/
theorem motor_nonfinite_components_skipped_witness :
    (applyMotor
        { linBoost := ⟨⟨1, 0, 0⟩, false⟩, linAcceleration := ⟨⟨0, 2, 0⟩, true⟩,
          angBoost := ⟨⟨0, 0, 3⟩, true⟩, angAcceleration := ⟨⟨4, 0, 0⟩, false⟩ }
        ⟨⟨5, 5, 5⟩, ⟨6, 6, 6⟩⟩ ⟨2, ⟨1, 1, 1⟩⟩ ⟨⟨7, 7, 7⟩, ⟨8, 8, 8⟩⟩).1.linvel =
      ⟨5, 5, 5⟩ :=
  (motor_nonfinite_components_skipped
      { linBoost := ⟨⟨1, 0, 0⟩, false⟩, linAcceleration := ⟨⟨0, 2, 0⟩, true⟩,
        angBoost := ⟨⟨0, 0, 3⟩, true⟩, angAcceleration := ⟨⟨4, 0, 0⟩, false⟩ }
      ⟨⟨5, 5, 5⟩, ⟨6, 6, 6⟩⟩ ⟨2, ⟨1, 1, 1⟩⟩ ⟨⟨7, 7, 7⟩, ⟨8, 8, 8⟩⟩).1.1 rfl

/-- C9: in the motor pass the first entity whose toggle is Disabled or
SenseOnly has its external force reset to the default and the pass returns,
so every entity later in the iteration order is left untouched even when its
toggle is Enabled. -/
theorem motors_pass_returns_at_first_not_enabled (pre : List MotorEntity)
    (d : MotorEntity) (post : List MotorEntity)
    (hpre : ∀ e ∈ pre, e.toggle = TnuaToggle.Enabled)
    (hd : d.toggle = TnuaToggle.Disabled ∨ d.toggle = TnuaToggle.SenseOnly) :
    applyMotorsSystem (pre ++ d :: post) =
      pre.map applyMotorEntity ++
        ({ d with externalForce := ExternalForce.default } :: post) := by
  induction pre with
  | nil =>
    rcases hd with hd | hd <;> simp [applyMotorsSystem, hd]
  | cons e t ih =>
    have he : e.toggle = TnuaToggle.Enabled := hpre e (by simp)
    have ht : ∀ x ∈ t, x.toggle = TnuaToggle.Enabled := fun x hx => hpre x (by simp [hx])
    simp [applyMotorsSystem, he, ih ht]

/-- Witness for C9: an enabled entity, then a sense-only entity, then an
enabled entity; the pass applies the first motor, resets the second force and
leaves the third entity untouched. -/
theorem motors_pass_returns_at_first_not_enabled_witness :
    applyMotorsSystem [mkMotorEntity TnuaToggle.Enabled, mkMotorEntity TnuaToggle.SenseOnly,
        mkMotorEntity TnuaToggle.Enabled] =
      [applyMotorEntity (mkMotorEntity TnuaToggle.Enabled),
        { mkMotorEntity TnuaToggle.SenseOnly with externalForce := ExternalForce.default },
        mkMotorEntity TnuaToggle.Enabled] :=
  motors_pass_returns_at_first_not_enabled [mkMotorEntity TnuaToggle.Enabled]
    (mkMotorEntity TnuaToggle.SenseOnly) [mkMotorEntity TnuaToggle.Enabled]
    (by intro e he; simp at he; rw [he]; rfl) (Or.inr rfl)

/-- C1, evaluation at the failing input: with ghost platforms at distances
two and three and a solid surface at distance five, the skip-cast loop
records the ghost list proximities as two and one — each relative to the
shifted cast origin of its own iteration, hence not strictly increasing —
and the final sensor output carries proximity four instead of the distance
five of the solid surface, because the loop feeds the relative time of
impact back as the next absolute skip distance. -/
theorem skip_cast_loop_records_relative_proximities :
    updateProximitySensor W1 0 cfg1 TnuaToggle.Enabled true prev0 =
      some { output := some (mkSensorOutputPlain 3 4),
             ghostList := [mkSensorOutputPlain 1 2, mkSensorOutputPlain 2 1] } ∧
    strictlyIncreasingB ([mkSensorOutputPlain 1 2, mkSensorOutputPlain 2 1].map
      SensorOutput.proximity) = false := by
  constructor
  · norm_num [updateProximitySensor, skipLoop, doCast, castRay, castPredicate, manifoldCheck,
      broadFilter, getCollider, isGhostPlatform, contactPair, pickNearest, mkSensorOutput,
      W1, cfg1, prev0, surf, ghostCollider, solidCollider, noGroups, InteractionGroups.all,
      InteractionGroups.test, mkSensorOutputPlain, V3.zero, List.lookup, List.filter]
  · norm_num [strictlyIncreasingB, mkSensorOutputPlain]

/-- C4, counterexample: entity seven at distance one has no collider record,
yet the cast predicate accepts it and the cast stops at it with it as the
sensor output, instead of treating it as absent and continuing past it to
the solid entity eight at distance two. -/
theorem missing_collider_candidate_hit :
    castPredicate W4 0 InteractionGroups.all true cfg1 [] 7 = true ∧
    updateProximitySensor W4 0 cfg1 TnuaToggle.Enabled true prev0 =
      some { output := some (mkSensorOutputPlain 7 1), ghostList := [] } := by
  constructor
  · decide
  · norm_num [updateProximitySensor, skipLoop, doCast, castRay, castPredicate, manifoldCheck,
      broadFilter, getCollider, isGhostPlatform, contactPair, pickNearest, mkSensorOutput,
      W4, cfg1, prev0, surf, solidCollider, InteractionGroups.all,
      InteractionGroups.test, mkSensorOutputPlain, V3.zero, List.lookup, List.filter]

/-- C4, amended: a candidate without a collider record skips the solver-group
and sensor-collider filters entirely, so the predicate on it reduces to the
contact-manifold check alone and the candidate stays hittable. -/
theorem missing_collider_skips_collider_filters (w : World) (ownerEntity : ℕ)
    (ownerSolverGroups : InteractionGroups) (hasGhostSensor : Bool) (cfg : SensorCfg)
    (visited : List ℕ) (entity : ℕ) (h : getCollider w entity = none) :
    castPredicate w ownerEntity ownerSolverGroups hasGhostSensor cfg visited entity =
      manifoldCheck w ownerEntity cfg entity := by
  simp [castPredicate, h]

/-- Witness for the amended C4 at the concrete collider-less candidate. -/
theorem missing_collider_skips_collider_filters_witness :
    getCollider W4 7 = none ∧
    castPredicate W4 0 InteractionGroups.all true cfg1 [] 7 = manifoldCheck W4 0 cfg1 7 :=
  ⟨by decide, missing_collider_skips_collider_filters W4 0 InteractionGroups.all true cfg1 [] 7
    (by decide)⟩

/-! Helper lemmas about the cast machinery. -/

theorem mkSensorOutput_entity (w : World) (cr : CastResult) :
    (mkSensorOutput w cr).entity = cr.entity := by
  unfold mkSensorOutput
  cases w.bodies.lookup cr.entity <;> rfl

theorem skipLoop_some_nonghost (w : World) (ownerEntity : ℕ)
    (ofil : Option InteractionGroups) (osg : InteractionGroups) (hgs : Bool)
    (cfg : SensorCfg) :
    ∀ fuel skip visited ghosts res gl,
      skipLoop w ownerEntity ofil osg hgs cfg fuel skip visited ghosts =
        some (some res, gl) →
      isGhostPlatform w res.entity = false := by
  intro fuel
  induction fuel with
  | zero => intro skip visited ghosts res gl h; simp [skipLoop] at h
  | succ n ih =>
    intro skip visited ghosts res gl h
    rw [skipLoop] at h
    cases hdc : doCast w ownerEntity ofil osg hgs cfg skip visited with
    | none => rw [hdc] at h; simp at h
    | some cr =>
      rw [hdc] at h
      simp only at h
      by_cases hgp : isGhostPlatform w cr.entity = true
      · rw [if_pos hgp] at h
        exact ih _ _ _ _ _ h
      · rw [if_neg hgp] at h
        simp only [Option.some.injEq, Prod.mk.injEq] at h
        rw [← h.1, mkSensorOutput_entity]
        exact Bool.eq_false_iff.mpr hgp

theorem dontFall_output_mem (minProximity : ℚ) (gl : List SensorOutput)
    (out : Option SensorOutput) (helper : HelperState) :
    (dontFall minProximity gl out helper).2 = out ∨
    ∃ g ∈ gl, (dontFall minProximity gl out helper).2 = some g := by
  cases helper with
  | none =>
    cases hf : gl.find? (qualifies minProximity) with
    | none => left; simp [dontFall, hf]
    | some g => right; exact ⟨g, List.mem_of_find?_eq_some hf, by simp [dontFall, hf]⟩
  | some e =>
    simp only [dontFall]
    split
    · left; rfl
    · cases hf : gl.find? (qualifies minProximity) with
      | none => left; simp [hf]
      | some g => right; exact ⟨g, List.mem_of_find?_eq_some hf, by simp [hf]⟩

theorem fallingThroughStep_output_mem (scheme : FallingThroughControlScheme)
    (minProximity : ℚ) (gl : List SensorOutput) (pressed just : Bool)
    (out : Option SensorOutput) (helper : HelperState) :
    (fallingThroughStep scheme minProximity gl pressed just out helper).output = out ∨
    ∃ g ∈ gl,
      (fallingThroughStep scheme minProximity gl pressed just out helper).output
        = some g := by
  cases scheme with
  | JumpThroughOnly =>
    show firstGhostOverride minProximity gl out = out ∨ _
    cases hf : gl.find? (qualifies minProximity) with
    | none => left; rw [firstGhostOverride_eq_find, hf]
    | some g =>
      right
      refine ⟨g, List.mem_of_find?_eq_some hf, ?_⟩
      show firstGhostOverride minProximity gl out = some g
      rw [firstGhostOverride_eq_find, hf]
  | WithoutHelper =>
    cases pressed with
    | true => left; rfl
    | false =>
      cases hf : gl.find? (qualifies minProximity) with
      | none => left; simp [fallingThroughStep, hf]
      | some g =>
        right
        exact ⟨g, List.mem_of_find?_eq_some hf, by simp [fallingThroughStep, hf]⟩
  | SingleFall =>
    cases pressed with
    | true => left; rfl
    | false =>
      show (dontFall minProximity gl out helper).2 = out ∨ _
      exact dontFall_output_mem minProximity gl out helper
  | KeepFalling =>
    cases pressed with
    | true => left; rfl
    | false =>
      show (dontFall minProximity gl out helper).2 = out ∨ _
      exact dontFall_output_mem minProximity gl out helper

/-- C2: while the toggle is not Disabled the sensor result is computed afresh
from the backend snapshot alone — it does not depend on the previous state,
and the output of the pass is empty or a non-ghost hit of this cast sequence;
whatever the fall-through step then writes to the output is either that value
or a copy of an entry of this tick's ghost list.  A Disabled toggle leaves
the previous state untouched. -/
theorem sensor_output_fresh_each_tick (w : World) (ownerEntity : ℕ)
    (cfg : SensorCfg) (toggle : TnuaToggle) (prev prev2 : SensorState) :
    (toggle = TnuaToggle.Disabled →
      updateProximitySensor w ownerEntity cfg toggle true prev = some prev) ∧
    (toggle ≠ TnuaToggle.Disabled →
      updateProximitySensor w ownerEntity cfg toggle true prev =
        updateProximitySensor w ownerEntity cfg toggle true prev2 ∧
      ∀ st, updateProximitySensor w ownerEntity cfg toggle true prev = some st →
        (st.output = none ∨
          ∃ o, st.output = some o ∧ isGhostPlatform w o.entity = false) ∧
        ∀ scheme minProximity pressed just helper,
          (fallingThroughStep scheme minProximity st.ghostList pressed just st.output
              helper).output = st.output ∨
          ∃ g ∈ st.ghostList,
            (fallingThroughStep scheme minProximity st.ghostList pressed just st.output
                helper).output = some g) := by
  constructor
  · rintro rfl
    rfl
  · intro hne
    cases toggle with
    | Disabled => exact absurd rfl hne
    | SenseOnly =>
      refine ⟨rfl, ?_⟩
      intro st hst
      refine ⟨?_, ?_⟩
      · simp only [updateProximitySensor] at hst
        rcases Option.map_eq_some'.mp hst with ⟨r, hr, hf⟩
        rcases r with ⟨ro, rg⟩
        cases ro with
        | none => left; rw [← hf]
        | some o =>
          right
          exact ⟨o, by rw [← hf], skipLoop_some_nonghost w ownerEntity _ _ true cfg
            _ _ _ _ o rg hr⟩
      · intro scheme minProximity pressed just helper
        exact fallingThroughStep_output_mem scheme minProximity st.ghostList pressed just
          st.output helper
    | Enabled =>
      refine ⟨rfl, ?_⟩
      intro st hst
      refine ⟨?_, ?_⟩
      · simp only [updateProximitySensor] at hst
        rcases Option.map_eq_some'.mp hst with ⟨r, hr, hf⟩
        rcases r with ⟨ro, rg⟩
        cases ro with
        | none => left; rw [← hf]
        | some o =>
          right
          exact ⟨o, by rw [← hf], skipLoop_some_nonghost w ownerEntity _ _ true cfg
            _ _ _ _ o rg hr⟩
      · intro scheme minProximity pressed just helper
        exact fallingThroughStep_output_mem scheme minProximity st.ghostList pressed just
          st.output helper

/-- Witness for C2 at the empty backend snapshot: a Disabled toggle keeps the
previous state, an Enabled run is independent of the previous state, and the
fresh output is empty or a non-ghost hit. -/
theorem sensor_output_fresh_each_tick_witness :
    updateProximitySensor W0 0 cfg1 TnuaToggle.Disabled true prev0 = some prev0 ∧
    updateProximitySensor W0 0 cfg1 TnuaToggle.Enabled true prev0 =
      updateProximitySensor W0 0 cfg1 TnuaToggle.Enabled true
        { output := some (mkSensorOutputPlain 9 9),
          ghostList := [mkSensorOutputPlain 9 9] } ∧
    (prev0.output = none ∨
      ∃ o, prev0.output = some o ∧ isGhostPlatform W0 o.entity = false) :=
  ⟨(sensor_output_fresh_each_tick W0 0 cfg1 TnuaToggle.Disabled prev0 prev0).1 rfl,
    ((sensor_output_fresh_each_tick W0 0 cfg1 TnuaToggle.Enabled prev0
        { output := some (mkSensorOutputPlain 9 9),
          ghostList := [mkSensorOutputPlain 9 9] }).2 (by decide)).1,
    (((sensor_output_fresh_each_tick W0 0 cfg1 TnuaToggle.Enabled prev0 prev0).2
        (by decide)).2 prev0 rfl).1⟩

theorem manifoldCheck_false_iff (w : World) (ownerEntity : ℕ) (cfg : SensorCfg)
    (e : ℕ) :
    manifoldCheck w ownerEntity cfg e = false ↔
      ∃ cp, contactPair w ownerEntity e = some cp ∧
        ∃ m ∈ cp.manifolds, 0 < m.numPoints ∧
          cfg.cutoff <
            V3.dot (if ownerEntity = cp.collider1 then m.localN2 else m.localN1)
              cfg.castDirection := by
  unfold manifoldCheck
  cases h : contactPair w ownerEntity e with
  | none => simp
  | some cp =>
    simp only [h, Option.some.injEq]
    constructor
    · intro hall
      rw [List.all_eq_false] at hall
      rcases hall with ⟨m, hm, hf⟩
      refine ⟨cp, rfl, m, hm, ?_⟩
      by_cases hnp : 0 < m.numPoints
      · simp [hnp] at hf
        exact ⟨hnp, hf⟩
      · simp [hnp] at hf
    · rintro ⟨cp2, rfl, m, hm, hnp, hdot⟩
      rw [List.all_eq_false]
      refine ⟨m, hm, ?_⟩
      simp [hnp, hdot]

/-- C3: with a ghost sensor present, a candidate that has a collider record
is rejected by the cast predicate exactly when its solver groups are
incompatible with those of the owner and it is not an unvisited ghost
platform, or it is a sensor collider, or some active contact manifold with at
least one point has a normal whose dot product with the cast direction
strictly exceeds the cutoff; a dot product equal to the cutoff does not
reject. -/
theorem cast_predicate_rejects_iff (w : World) (ownerEntity : ℕ)
    (osg : InteractionGroups) (cfg : SensorCfg) (visited : List ℕ) (e : ℕ)
    (oc : ColliderData) (hc : getCollider w e = some oc) :
    castPredicate w ownerEntity osg true cfg visited e = false ↔
      (oc.solverGroups.test osg = false ∧
        ¬(isGhostPlatform w e = true ∧ e ∉ visited)) ∨
      oc.isSensor = true ∨
      (∃ cp, contactPair w ownerEntity e = some cp ∧
        ∃ m ∈ cp.manifolds, 0 < m.numPoints ∧
          cfg.cutoff <
            V3.dot (if ownerEntity = cp.collider1 then m.localN2 else m.localN1)
              cfg.castDirection) := by
  rw [← manifoldCheck_false_iff w ownerEntity cfg e]
  simp only [castPredicate, hc]
  by_cases hv : e ∈ visited <;>
    cases ht : oc.solverGroups.test osg <;>
    cases hg : isGhostPlatform w e <;>
    cases hs : oc.isSensor <;>
    cases hmc : manifoldCheck w ownerEntity cfg e <;>
    simp [ht, hg, hs, hv, hmc]

/-- Witness for C3 at the ghost platform of the first scenario world. -/
theorem cast_predicate_rejects_iff_witness :
    getCollider W1 1 = some ghostCollider ∧
    (castPredicate W1 0 InteractionGroups.all true cfg1 [] 1 = false ↔
      (ghostCollider.solverGroups.test InteractionGroups.all = false ∧
        ¬(isGhostPlatform W1 1 = true ∧ 1 ∉ ([] : List ℕ))) ∨
      ghostCollider.isSensor = true ∨
      (∃ cp, contactPair W1 0 1 = some cp ∧
        ∃ m ∈ cp.manifolds, 0 < m.numPoints ∧
          cfg1.cutoff <
            V3.dot (if 0 = cp.collider1 then m.localN2 else m.localN1)
              cfg1.castDirection)) :=
  ⟨by decide,
    cast_predicate_rejects_iff W1 0 InteractionGroups.all cfg1 [] 1 ghostCollider
      (by decide)⟩

theorem pickNearest_mem :
    ∀ (l : List Surface) (s : Surface), pickNearest l = some s → s ∈ l := by
  intro l
  induction l with
  | nil => intro s h; simp [pickNearest] at h
  | cons a t ih =>
    intro s h
    simp only [pickNearest] at h
    cases hp : pickNearest t with
    | none =>
      rw [hp] at h
      exact (Option.some.inj h) ▸ List.mem_cons_self a t
    | some b =>
      rw [hp] at h
      simp only at h
      by_cases hd : a.dist ≤ b.dist
      · rw [if_pos hd] at h
        exact (Option.some.inj h) ▸ List.mem_cons_self a t
      · rw [if_neg hd] at h
        exact List.mem_cons_of_mem a ((Option.some.inj h) ▸ ih b hp)

theorem castRay_facts (w : World) (ownerEntity : ℕ) (ofil : Option InteractionGroups)
    (pred : ℕ → Bool) (skip range : ℚ) (s : Surface)
    (h : castRay w ownerEntity ofil pred skip range = some s) :
    s ∈ w.surfaces ∧ pred s.entity = true := by
  unfold castRay at h
  have hmem := pickNearest_mem _ s h
  rw [List.mem_filter] at hmem
  refine ⟨hmem.1, ?_⟩
  have hb := hmem.2
  simp only [Bool.and_eq_true] at hb
  exact hb.2

theorem doCast_facts (w : World) (ownerEntity : ℕ) (ofil : Option InteractionGroups)
    (osg : InteractionGroups) (hgs : Bool) (cfg : SensorCfg) (skip : ℚ)
    (visited : List ℕ) (cr : CastResult)
    (h : doCast w ownerEntity ofil osg hgs cfg skip visited = some cr) :
    ∃ s ∈ w.surfaces, cr.entity = s.entity ∧
      castPredicate w ownerEntity osg hgs cfg visited s.entity = true := by
  unfold doCast at h
  rcases Option.map_eq_some'.mp h with ⟨s, hcast, hcr⟩
  have hfacts := castRay_facts w ownerEntity ofil _ skip _ s hcast
  exact ⟨s, hfacts.1, by rw [← hcr], hfacts.2⟩

theorem predicate_true_ghost_not_visited (w : World) (ownerEntity : ℕ)
    (osg : InteractionGroups) (hgs : Bool) (cfg : SensorCfg) (visited : List ℕ)
    (e : ℕ) (oc : ColliderData) (hgp : isGhostPlatform w e = true)
    (hc : getCollider w e = some oc) (htest : oc.solverGroups.test osg = false)
    (hpred : castPredicate w ownerEntity osg hgs cfg visited e = true) :
    e ∉ visited := by
  simp only [castPredicate, hc, htest, hgp, Bool.and_eq_true] at hpred
  cases hgs with
  | false => simp at hpred
  | true =>
    simp at hpred
    exact hpred.1.1

theorem length_filter_lt {α : Type} {l : List α} {p q : α → Bool}
    (himp : ∀ a, q a = true → p a = true) {a : α} (ha : a ∈ l) (hpa : p a = true)
    (hqa : q a = false) : (l.filter q).length < (l.filter p).length := by
  induction l with
  | nil => simp at ha
  | cons b t ih =>
    rcases List.mem_cons.mp ha with rfl | hat
    · rw [List.filter_cons_of_pos hpa, List.filter_cons_of_neg (by simp [hqa])]
      have hsub := List.monotone_filter_right t (fun x hx => himp x hx)
      exact Nat.lt_succ_of_le hsub.length_le
    · by_cases hqb : q b = true
      · have hpb := himp b hqb
        rw [List.filter_cons_of_pos hpb, List.filter_cons_of_pos hqb]
        simpa using Nat.succ_lt_succ (ih hat)
      · have hqb' : q b = false := by simpa using hqb
        rw [List.filter_cons_of_neg (by simp [hqb'])]
        cases hpb : p b
        · rw [List.filter_cons_of_neg (by simp [hpb])]
          exact ih hat
        · rw [List.filter_cons_of_pos hpb]
          exact Nat.lt_of_lt_of_le (ih hat) (Nat.le_succ _)

theorem skipLoop_isSome (w : World) (ownerEntity : ℕ) (ofil : Option InteractionGroups)
    (osg : InteractionGroups) (hgs : Bool) (cfg : SensorCfg)
    (hghost : ∀ s ∈ w.surfaces, isGhostPlatform w s.entity = true →
      (getCollider w s.entity).map (fun c => c.solverGroups.test osg) = some false) :
    ∀ fuel visited skip ghosts, ghostMeasure w visited < fuel →
      (skipLoop w ownerEntity ofil osg hgs cfg fuel skip visited ghosts).isSome
        = true := by
  intro fuel
  induction fuel with
  | zero => intro visited skip ghosts h; exact absurd h (Nat.not_lt_zero _)
  | succ n ih =>
    intro visited skip ghosts hlt
    rw [skipLoop]
    cases hdc : doCast w ownerEntity ofil osg hgs cfg skip visited with
    | none => simp
    | some cr =>
      simp only
      by_cases hgp : isGhostPlatform w cr.entity = true
      · rw [if_pos hgp]
        rcases doCast_facts _ _ _ _ _ _ _ _ _ hdc with ⟨s, hsmem, hse, hpred⟩
        have hgps : isGhostPlatform w s.entity = true := hse ▸ hgp
        have hcol := hghost s hsmem hgps
        rcases Option.map_eq_some'.mp hcol with ⟨oc, hoc, htest⟩
        have hnv : s.entity ∉ visited := predicate_true_ghost_not_visited w ownerEntity
          osg hgs cfg visited s.entity oc hgps hoc htest hpred
        apply ih
        have hdec : ghostMeasure w (visited.insert cr.entity) < ghostMeasure w visited := by
          unfold ghostMeasure
          apply length_filter_lt (a := s)
          · intro x hx
            simp only [Bool.and_eq_true, Bool.not_eq_true', decide_eq_false_iff_not]
              at hx ⊢
            refine ⟨hx.1, ?_⟩
            intro hmem
            exact hx.2 (List.mem_insert_iff.mpr (Or.inr hmem))
          · exact hsmem
          · simp only [Bool.and_eq_true, Bool.not_eq_true', decide_eq_false_iff_not]
            exact ⟨hgps, hnv⟩
          · have hin : s.entity ∈ visited.insert cr.entity :=
              List.mem_insert_iff.mpr (Or.inl hse.symm)
            simp [hin, hgps]
        exact Nat.lt_of_lt_of_le hdec (Nat.lt_succ_iff.mp hlt)
      · rw [if_neg hgp]
        simp

/-- C10: when every ghost-platform surface along the cast has a collider
whose solver groups are incompatible with those of the owner, the skip-cast
loop terminates within one iteration more than the number of surfaces: each
iteration either breaks or visits a fresh ghost entity that is excluded from
every later cast of the sequence. -/
theorem skip_cast_loop_terminates (w : World) (ownerEntity : ℕ)
    (ofil : Option InteractionGroups) (osg : InteractionGroups) (hgs : Bool)
    (cfg : SensorCfg)
    (hghost : ∀ s ∈ w.surfaces, isGhostPlatform w s.entity = true →
      (getCollider w s.entity).map (fun c => c.solverGroups.test osg) = some false) :
    (skipLoop w ownerEntity ofil osg hgs cfg (w.surfaces.length + 1) 0 [] []).isSome
      = true :=
  skipLoop_isSome w ownerEntity ofil osg hgs cfg hghost _ [] 0 []
    (Nat.lt_succ_of_le (List.length_filter_le _ _))

/-- Witness for C10 at the first scenario world, whose two ghost platforms
both have solver groups incompatible with the owner. -/
theorem skip_cast_loop_terminates_witness :
    (skipLoop W1 0 (some InteractionGroups.all) InteractionGroups.all true cfg1
      (W1.surfaces.length + 1) 0 [] []).isSome = true :=
  skip_cast_loop_terminates W1 0 (some InteractionGroups.all) InteractionGroups.all
    true cfg1 (by decide)

end Tnua
